import Mathlib

/-!
Shallow embedding of the wasmtime VM adapter of wasm-nginx-module
(src/vm/wasmtime.c).

Each fallible wasmtime/nginx API call is modelled by an environment field
that records its outcome (success, or the error/trap object it produced).
The embedded functions return the value the C function returns together
with a trace of observable events: resource allocations and releases,
ownership transfers, log lines, diagnostics obtained from the engine, and
the invocation of a guest export.  The traces mirror the goto-based
rollback chains of the C code exactly, so resource-safety claims become
statements about which events appear in a trace.
-/

/-- An engine-level error object (wasmtime_error_t).  The field is the text
that wasmtime_error_message would extract from it. -/
structure wasmtime_error_t where
  msg : String
  deriving DecidableEq

/-- A trap object (wasm_trap_t).  The field is the text that
wasm_trap_message would extract from it. -/
structure wasm_trap_t where
  msg : String
  deriving DecidableEq

/-- Observable events of the adapter: resource lifecycle, ownership
transfer, diagnostics obtained from the engine, reporting/releasing those
diagnostics, log lines, and guest-export invocation. -/
inductive Event where
  | allocModule                      -- wasmtime_module_new produced a module
  | freeModule                       -- wasmtime_module_delete
  | allocStore                       -- wasmtime_store_new produced a store
  | freeStore                        -- wasmtime_store_delete
  | allocConfig                      -- wasi_config_new produced a config
  | attachConfig                     -- wasmtime_context_set_wasi succeeded: the store context took ownership of the config
  | freeConfig                       -- wasi_config_delete
  | allocLinker                      -- wasmtime_linker_new produced a linker
  | defineFunc (name : String)       -- wasmtime_linker_define_func attempted for a host API entry
  | freeLinker                       -- wasmtime_linker_delete
  | allocPlugin                      -- ngx_alloc produced the plugin record
  | freePlugin                       -- ngx_free of the plugin record
  | freeEngine                       -- wasm_engine_delete
  | gotError (msg : String)          -- the code received a non-null wasmtime_error_t from an API call
  | gotTrap (msg : String)           -- the code received a non-null wasm_trap_t from an API call
  | releaseError (msg : String)      -- wasmtime_error_delete inside the reporter
  | releaseTrap (msg : String)       -- wasm_trap_delete inside the reporter
  | logErr (msg : String)            -- ngx_log_error at NGX_LOG_ERR
  | logInfo (msg : String)           -- ngx_log_error at NGX_LOG_INFO / NOTICE
  | logDebug (msg : String)          -- ngx_log_debug
  | invoke (params : List Int) (nresults : Nat)  -- wasmtime_func_call on the export
  | ubTrapMessageOnNull              -- wasm_trap_message called on a NULL trap (undefined behaviour)
  deriving DecidableEq

/-- ngx_wasm_wasmtime_report_error: prefer the error object; extract its
message, delete the object, then log the caller-supplied prefix followed by
the extracted message.  With a null error the trap is used the same way; if
the trap is also null the C code dereferences NULL (undefined). -/
def ngx_wasm_wasmtime_report_error (message : String) :
    Option wasmtime_error_t → Option wasm_trap_t → List Event
  | some e, _ => [.releaseError e.msg, .logErr (message ++ e.msg)]
  | none, some t => [.releaseTrap t.msg, .logErr (message ++ t.msg)]
  | none, none => [.ubTrapMessageOnNull]

/-- The process-wide engine object (wasm_engine_t). -/
structure wasm_engine_t where
  mk ::
  deriving DecidableEq

def NGX_OK : Int := 0

def NGX_ERROR : Int := -1

def NGX_DECLINED : Int := -5

/-- ngx_wasm_wasmtime_init: create the singleton engine; NGX_DECLINED when
wasm_engine_new yields NULL. -/
def ngx_wasm_wasmtime_init (engineOk : Bool) :
    Option wasm_engine_t × Int × List Event :=
  if engineOk then
    (some ⟨⟩, NGX_OK, [Event.logInfo "init wasm vm: wasmtime"])
  else
    (none, NGX_DECLINED, [Event.logInfo "init wasm vm: wasmtime"])

/-- ngx_wasm_wasmtime_cleanup: return immediately when the engine handle is
null, otherwise log and destroy the engine. -/
def ngx_wasm_wasmtime_cleanup : Option wasm_engine_t → List Event
  | none => []
  | some _ => [Event.logInfo "cleanup wasm vm: wasmtime", Event.freeEngine]

/-- The plugin record (ngx_wasm_wasmtime_plugin_t).  Each boolean field
records that the corresponding pointer/handle field was written with the
live resource on the success path. -/
structure ngx_wasm_wasmtime_plugin_t where
  module : Bool
  store : Bool
  context : Bool
  linker : Bool
  inst : Bool
  deriving DecidableEq

/-- Outcome of wasmtime_module_new: either a compiled module (non-null
module out-parameter, null error), or a null module together with the error
object the call returned. -/
inductive CompileOutcome where
  | ok
  | err (e : wasmtime_error_t)
  deriving DecidableEq

/-- Outcome of wasmtime_linker_instantiate: success, a returned error
object, or a trap raised by guest start-up code (error stays null). -/
inductive InstOutcome where
  | ok
  | err (e : wasmtime_error_t)
  | trapped (t : wasm_trap_t)
  deriving DecidableEq

/-- Environment for one ngx_wasm_wasmtime_load call: the outcome of every
fallible step, in program order.  hostApis lists the entries of the
host_apis registry (name, and the outcome of wasmtime_linker_define_func
for that entry). -/
structure LoadEnv where
  compile : CompileOutcome
  storeOk : Bool
  wasiConfigOk : Bool
  setWasi : Option wasmtime_error_t
  linkerOk : Bool
  defineWasi : Option wasmtime_error_t
  hostApis : List (String × Option wasmtime_error_t)
  allocOk : Bool
  inst : InstOutcome

/-- Events of the free_module label: wasmtime_module_delete. -/
def free_module_tail : List Event := [.freeModule]

/-- Events of the free_store label, falling through to free_module. -/
def free_store_tail : List Event := .freeStore :: free_module_tail

/-- Events of the free_config label, falling through to free_store. -/
def free_config_tail : List Event := .freeConfig :: free_store_tail

/-- Events of the free_linker label, falling through to free_config. -/
def free_linker_tail : List Event := .freeLinker :: free_config_tail

/-- The host-API registration loop of ngx_wasm_wasmtime_load: for each
registry entry, log, define the function in the linker, and on a non-null
error report it and abort (the caller then jumps to free_linker).  Returns
the loop trace and whether the loop completed. -/
def defineHostApis : List (String × Option wasmtime_error_t) → List Event × Bool
  | [] => ([], true)
  | (name, outcome) :: rest =>
    match outcome with
    | none =>
      let tail := defineHostApis rest
      (Event.logDebug ("define wasm host API " ++ name) :: Event.defineFunc name :: tail.1,
       tail.2)
    | some e =>
      (Event.logDebug ("define wasm host API " ++ name) :: Event.defineFunc name ::
         Event.gotError e.msg ::
         ngx_wasm_wasmtime_report_error "failed to define API" (some e) none,
       false)

/-- ngx_wasm_wasmtime_load: compile the module, create a store, build and
attach the WASI configuration, create a linker, define WASI and every host
API in it, allocate the plugin record, instantiate, and on success populate
the record.  Each failure jumps to the corresponding rollback label, whose
fall-through chain is reproduced in the trace. -/
def ngx_wasm_wasmtime_load (env : LoadEnv) :
    Option ngx_wasm_wasmtime_plugin_t × List Event :=
  match env.compile with
  | .err e => (none, [.gotError e.msg])  -- module == NULL: return NULL, error discarded
  | .ok =>
    if !env.storeOk then
      (none, [.allocModule] ++ free_module_tail)
    else if !env.wasiConfigOk then
      -- the context handle is obtained from the store; no allocation of its own
      (none, [.allocModule, .allocStore] ++ free_store_tail)
    else
      match env.setWasi with
      | some e =>
        (none, [.allocModule, .allocStore, .allocConfig, .gotError e.msg]
            ++ ngx_wasm_wasmtime_report_error "failed to init WASI: " (some e) none
            ++ free_config_tail)
      | none =>
        if !env.linkerOk then
          (none, [.allocModule, .allocStore, .allocConfig, .attachConfig]
              ++ free_config_tail)
        else
          match env.defineWasi with
          | some e =>
            (none, [.allocModule, .allocStore, .allocConfig, .attachConfig, .allocLinker,
                    .gotError e.msg]
                ++ ngx_wasm_wasmtime_report_error "failed to init WASI: " (some e) none
                ++ free_linker_tail)
          | none =>
            let loop := defineHostApis env.hostApis
            let pre : List Event :=
              [.allocModule, .allocStore, .allocConfig, .attachConfig, .allocLinker] ++ loop.1
            if !loop.2 then
              (none, pre ++ free_linker_tail)
            else if !env.allocOk then
              (none, pre ++ free_linker_tail)
            else
              match env.inst with
              | .err e =>
                -- goto free_linker: the plugin record itself is NOT freed here
                (none, pre ++ [.allocPlugin, .gotError e.msg]
                    ++ ngx_wasm_wasmtime_report_error "failed to new instance: " (some e) none
                    ++ free_linker_tail)
              | .ok =>
                (some ⟨true, true, true, true, true⟩,
                 pre ++ [.allocPlugin, .logInfo "loaded wasm plugin"])
              | .trapped t =>
                -- the code only checks the error out-parameter; a trap is ignored
                (some ⟨true, true, true, true, true⟩,
                 pre ++ [.allocPlugin, .gotTrap t.msg, .logInfo "loaded wasm plugin"])

/-- ngx_wasm_wasmtime_unload: release module, store and linker, then the
record itself. -/
def ngx_wasm_wasmtime_unload (_plugin : ngx_wasm_wasmtime_plugin_t) : List Event :=
  [.freeModule, .freeStore, .freeLinker, .freePlugin, .logInfo "unloaded wasm plugin"]

/-- The param_type tag of ngx_wasm_wasmtime_call.  The switch in the C code
recognises NGX_WASM_PARAM_I32_I32 (with the two int32 varargs carried here)
and NGX_WASM_PARAM_VOID; every other tag value falls into the default
branch. -/
inductive ParamType where
  | i32i32 (a b : Int)
  | void
  | unknown (tag : Int)
  deriving DecidableEq

/-- A wasmtime_val_t as observed in results[0]: either kind WASMTIME_I32
with its 32-bit payload, or a value of some other kind. -/
inductive wasmtime_val_t where
  | i32 (v : Int)
  | other (kind : Nat)
  deriving DecidableEq

/-- Outcome of wasmtime_func_call: success with the single result slot (only
meaningful when one result was requested), an error object, or a trap. -/
inductive CallOutcome where
  | ok (result : wasmtime_val_t)
  | err (e : wasmtime_error_t)
  | trapped (t : wasm_trap_t)
  deriving DecidableEq

/-- Environment for one ngx_wasm_wasmtime_call: the export name, whether
wasmtime_instance_export_get finds it on the plugin instance, whether a
result is requested, the param_type tag with its arguments, and the outcome
of wasmtime_func_call if it is reached. -/
structure CallEnv where
  name : String
  exportFound : Bool
  hasResult : Bool
  paramType : ParamType
  callOutcome : CallOutcome

/-- The marshalled params array for a recognised param_type tag. -/
def marshal : ParamType → List Int
  | .i32i32 a b => [a, b]
  | .void => []
  | .unknown _ => []

/-- ngx_wasm_wasmtime_call: look up the export (absent is a benign NGX_OK),
marshal the arguments by tag (unknown tag logs and returns NGX_ERROR),
invoke the export, report any error or trap as NGX_ERROR, and either return
NGX_OK (no result requested), NGX_ERROR on a non-i32 result kind, or the
extracted i32 result itself. -/
def ngx_wasm_wasmtime_call (env : CallEnv) : Int × List Event :=
  let tr0 : List Event := [.logDebug ("wasmtime call function " ++ env.name)]
  if !env.exportFound then
    (NGX_OK, tr0 ++ [.logDebug ("wasmtime function " ++ env.name ++ " not defined")])
  else
    match env.paramType with
    | .unknown tag =>
      (NGX_ERROR, tr0 ++ [.logErr ("unknown param type: " ++ toString tag)])
    | pt =>
      let tr1 := tr0 ++ [Event.invoke (marshal pt) (if env.hasResult then 1 else 0)]
      match env.callOutcome with
      | .err e =>
        (NGX_ERROR, tr1 ++ [.gotError e.msg]
            ++ ngx_wasm_wasmtime_report_error "failed to call function: " (some e) none)
      | .trapped t =>
        (NGX_ERROR, tr1 ++ [.gotTrap t.msg]
            ++ ngx_wasm_wasmtime_report_error "failed to call function: " none (some t))
      | .ok result =>
        if !env.hasResult then
          (NGX_OK, tr1 ++ [.logDebug "wasmtime call function done"])
        else
          match result with
          | .i32 v =>
            (v, tr1 ++ [.logDebug ("wasmtime call function result: " ++ toString v)])
          | .other kind =>
            (NGX_ERROR, tr1 ++ [.logErr ("function returns unexpected type: " ++ toString kind)])

/-- A value is representable as a guest 32-bit integer result. -/
def int32Representable (v : Int) : Prop := -(2 ^ 31) ≤ v ∧ v < 2 ^ 31

/-- True when the trace performs a wasmtime_func_call. -/
def invokes (tr : List Event) : Bool :=
  tr.any fun ev => match ev with
    | .invoke _ _ => true
    | _ => false

/-- True when the trace contains an error-level log line. -/
def logsError (tr : List Event) : Bool :=
  tr.any fun ev => match ev with
    | .logErr _ => true
    | _ => false

/-- True when the trace surfaces any diagnostic: an error-level log line or
the release of an error/trap object by the reporter. -/
def surfacesDiagnostic (tr : List Event) : Bool :=
  tr.any fun ev => match ev with
    | .logErr _ => true
    | .releaseError _ => true
    | .releaseTrap _ => true
    | _ => false

/-- Every error object the host-API loop obtains is released (by the
reporter) within the loop trace itself. -/
theorem defineHostApis_releases (apis : List (String × Option wasmtime_error_t))
    (m : String) (h : Event.gotError m ∈ (defineHostApis apis).1) :
    Event.releaseError m ∈ (defineHostApis apis).1 := by
  induction apis with
  | nil => simp [defineHostApis] at h
  | cons hd tl ih =>
    obtain ⟨name, outcome⟩ := hd
    cases outcome with
    | none =>
      simp only [defineHostApis, List.mem_cons] at h ⊢
      rcases h with h | h | h
      · exact absurd h (by simp)
      · exact absurd h (by simp)
      · exact Or.inr (Or.inr (ih h))
    | some e =>
      simp [defineHostApis, ngx_wasm_wasmtime_report_error] at h ⊢
      exact h

/-- Claim C3: ngx_wasm_wasmtime_call with an export name absent from the
module returns NGX_OK, its trace is exactly the two debug log lines (so the
plugin is untouched), and no guest function is invoked. -/
theorem call_absent_export_returns_ok (env : CallEnv)
    (h : env.exportFound = false) :
    ngx_wasm_wasmtime_call env =
      (NGX_OK,
       [Event.logDebug ("wasmtime call function " ++ env.name),
        Event.logDebug ("wasmtime function " ++ env.name ++ " not defined")]) ∧
    invokes (ngx_wasm_wasmtime_call env).2 = false := by
  constructor
  · simp [ngx_wasm_wasmtime_call, h]
  · simp [ngx_wasm_wasmtime_call, h, invokes]

def c3Env : CallEnv :=
  ⟨"on_request", false, false, ParamType.void, CallOutcome.ok (wasmtime_val_t.i32 0)⟩

/-- Witness for C3 at a concrete absent export. -/
theorem call_absent_export_returns_ok_witness :
    c3Env.exportFound = false ∧
    (ngx_wasm_wasmtime_call c3Env =
      (NGX_OK,
       [Event.logDebug ("wasmtime call function " ++ c3Env.name),
        Event.logDebug ("wasmtime function " ++ c3Env.name ++ " not defined")]) ∧
     invokes (ngx_wasm_wasmtime_call c3Env).2 = false) :=
  ⟨rfl, call_absent_export_returns_ok c3Env rfl⟩

/-- Claim C4: with the two-int32 shape, a requested result, and a successful
call returning an i32 value, ngx_wasm_wasmtime_call returns exactly that
value, after invoking the export with the two marshalled arguments and one
result slot. -/
theorem call_i32i32_returns_extracted_result (env : CallEnv) (a b v : Int)
    (hf : env.exportFound = true) (hr : env.hasResult = true)
    (hp : env.paramType = ParamType.i32i32 a b)
    (ho : env.callOutcome = CallOutcome.ok (wasmtime_val_t.i32 v)) :
    (ngx_wasm_wasmtime_call env).1 = v ∧
    Event.invoke [a, b] 1 ∈ (ngx_wasm_wasmtime_call env).2 := by
  constructor
  · simp [ngx_wasm_wasmtime_call, hf, hr, hp, ho, marshal]
  · simp [ngx_wasm_wasmtime_call, hf, hr, hp, ho, marshal]

def c4Env : CallEnv :=
  ⟨"add", true, true, ParamType.i32i32 2 3, CallOutcome.ok (wasmtime_val_t.i32 5)⟩

/-- Witness for C4: the add(2,3) scenario returns 5. -/
theorem call_i32i32_returns_extracted_result_witness :
    c4Env.exportFound = true ∧ c4Env.hasResult = true ∧
    c4Env.paramType = ParamType.i32i32 2 3 ∧
    c4Env.callOutcome = CallOutcome.ok (wasmtime_val_t.i32 5) ∧
    ((ngx_wasm_wasmtime_call c4Env).1 = 5 ∧
     Event.invoke [2, 3] 1 ∈ (ngx_wasm_wasmtime_call c4Env).2) :=
  ⟨rfl, rfl, rfl, rfl,
   call_i32i32_returns_extracted_result c4Env 2 3 5 rfl rfl rfl rfl⟩

/-- Claim C9: cleanup with a null engine handle is a no-op (empty trace);
with a live engine it logs and destroys the engine. -/
theorem cleanup_noop_without_engine :
    ngx_wasm_wasmtime_cleanup none = [] ∧
    ∀ e : wasm_engine_t, ngx_wasm_wasmtime_cleanup (some e) =
      [Event.logInfo "cleanup wasm vm: wasmtime", Event.freeEngine] :=
  ⟨rfl, fun _ => rfl⟩

/-- Claim C6: when compilation fails (wasmtime_module_new leaves the module
null), load returns NULL before any store or linker is created. -/
theorem load_compile_failure_no_store_no_linker (env : LoadEnv)
    (e : wasmtime_error_t) (h : env.compile = CompileOutcome.err e) :
    (ngx_wasm_wasmtime_load env).1 = none ∧
    Event.allocStore ∉ (ngx_wasm_wasmtime_load env).2 ∧
    Event.allocLinker ∉ (ngx_wasm_wasmtime_load env).2 := by
  refine ⟨?_, ?_, ?_⟩ <;> simp [ngx_wasm_wasmtime_load, h]

def c6Env : LoadEnv :=
  ⟨CompileOutcome.err ⟨"failed to parse WebAssembly module"⟩,
   true, true, none, true, none, [], true, InstOutcome.ok⟩

/-- Witness for C6 at concrete malformed bytecode. -/
theorem load_compile_failure_no_store_no_linker_witness :
    c6Env.compile = CompileOutcome.err ⟨"failed to parse WebAssembly module"⟩ ∧
    ((ngx_wasm_wasmtime_load c6Env).1 = none ∧
     Event.allocStore ∉ (ngx_wasm_wasmtime_load c6Env).2 ∧
     Event.allocLinker ∉ (ngx_wasm_wasmtime_load c6Env).2) :=
  ⟨rfl, load_compile_failure_no_store_no_linker c6Env ⟨"failed to parse WebAssembly module"⟩ rfl⟩

/-- Claim C7: with the export found but an unrecognised param_type tag, the
call logs the unknown-tag error and returns NGX_ERROR without invoking the
export. -/
theorem call_unknown_param_type_fails_without_invoke (env : CallEnv) (tag : Int)
    (hf : env.exportFound = true) (hp : env.paramType = ParamType.unknown tag) :
    ngx_wasm_wasmtime_call env =
      (NGX_ERROR,
       [Event.logDebug ("wasmtime call function " ++ env.name),
        Event.logErr ("unknown param type: " ++ toString tag)]) ∧
    invokes (ngx_wasm_wasmtime_call env).2 = false := by
  constructor
  · simp [ngx_wasm_wasmtime_call, hf, hp]
  · simp [ngx_wasm_wasmtime_call, hf, hp, invokes]

def c7Env : CallEnv :=
  ⟨"on_tick", true, false, ParamType.unknown 7, CallOutcome.ok (wasmtime_val_t.i32 0)⟩

/-- Witness for C7 at a concrete unknown tag. -/
theorem call_unknown_param_type_fails_without_invoke_witness :
    c7Env.exportFound = true ∧ c7Env.paramType = ParamType.unknown 7 ∧
    (ngx_wasm_wasmtime_call c7Env =
      (NGX_ERROR,
       [Event.logDebug ("wasmtime call function " ++ c7Env.name),
        Event.logErr ("unknown param type: " ++ toString (7 : Int))]) ∧
     invokes (ngx_wasm_wasmtime_call c7Env).2 = false) :=
  ⟨rfl, rfl, call_unknown_param_type_fails_without_invoke c7Env 7 rfl rfl⟩

/-- The param_type tags the switch recognises. -/
def isSupportedShape : ParamType → Bool
  | .unknown _ => false
  | _ => true

/-- Claim C8: when a result is requested and the call succeeds but
results[0] has a kind other than WASMTIME_I32, the call logs the
unexpected-type error and returns NGX_ERROR. -/
theorem call_result_type_mismatch_fails (env : CallEnv) (kind : Nat)
    (hf : env.exportFound = true) (hs : isSupportedShape env.paramType = true)
    (hr : env.hasResult = true)
    (ho : env.callOutcome = CallOutcome.ok (wasmtime_val_t.other kind)) :
    (ngx_wasm_wasmtime_call env).1 = NGX_ERROR ∧
    Event.logErr ("function returns unexpected type: " ++ toString kind) ∈
      (ngx_wasm_wasmtime_call env).2 := by
  cases hpt : env.paramType with
  | unknown tag => rw [hpt] at hs; simp [isSupportedShape] at hs
  | i32i32 a b =>
    constructor <;> simp [ngx_wasm_wasmtime_call, hf, hr, hpt, ho, marshal]
  | void =>
    constructor <;> simp [ngx_wasm_wasmtime_call, hf, hr, hpt, ho, marshal]

def c8Env : CallEnv :=
  ⟨"on_response", true, true, ParamType.void, CallOutcome.ok (wasmtime_val_t.other 3)⟩

/-- Witness for C8 at a concrete non-i32 result kind. -/
theorem call_result_type_mismatch_fails_witness :
    c8Env.exportFound = true ∧ isSupportedShape c8Env.paramType = true ∧
    c8Env.hasResult = true ∧
    c8Env.callOutcome = CallOutcome.ok (wasmtime_val_t.other 3) ∧
    ((ngx_wasm_wasmtime_call c8Env).1 = NGX_ERROR ∧
     Event.logErr ("function returns unexpected type: " ++ toString (3 : Nat)) ∈
       (ngx_wasm_wasmtime_call c8Env).2) :=
  ⟨rfl, rfl, rfl, rfl, call_result_type_mismatch_fails c8Env 3 rfl rfl rfl rfl⟩

def c1Env : LoadEnv :=
  ⟨CompileOutcome.ok, true, true, none, true, none,
   [("proxy_set_effective_context", none)], true,
   InstOutcome.err ⟨"ngx error: unknown import: env::missing has not been defined"⟩⟩

/-- Claim C1 (code evaluated at the failing input): when every step up to
instantiation succeeds and wasmtime_linker_instantiate fails, load returns
NULL and the rollback frees linker, wasi config, store and module, but the
plugin record allocated by ngx_alloc is never freed: it is retained. -/
theorem load_retains_plugin_record_on_instantiation_failure :
    (ngx_wasm_wasmtime_load c1Env).1 = none ∧
    Event.allocPlugin ∈ (ngx_wasm_wasmtime_load c1Env).2 ∧
    Event.freePlugin ∉ (ngx_wasm_wasmtime_load c1Env).2 ∧
    Event.freeLinker ∈ (ngx_wasm_wasmtime_load c1Env).2 ∧
    Event.freeConfig ∈ (ngx_wasm_wasmtime_load c1Env).2 ∧
    Event.freeStore ∈ (ngx_wasm_wasmtime_load c1Env).2 ∧
    Event.freeModule ∈ (ngx_wasm_wasmtime_load c1Env).2 := by
  decide

def c2Env : LoadEnv :=
  ⟨CompileOutcome.ok, true, true, none, false, none, [], true, InstOutcome.ok⟩

/-- Claim C2 (code evaluated at the failing input): the WASI config is
attached to the store context (which takes ownership of it), then linker
creation fails and the rollback chain runs wasi_config_delete on that same
config: the attached config is released a second time. -/
theorem load_frees_wasi_config_after_ownership_transfer :
    (ngx_wasm_wasmtime_load c2Env).1 = none ∧
    Event.attachConfig ∈ (ngx_wasm_wasmtime_load c2Env).2 ∧
    Event.freeConfig ∈ (ngx_wasm_wasmtime_load c2Env).2 := by
  decide

def c5Env : LoadEnv :=
  ⟨CompileOutcome.err ⟨"input bytes do not start with the wasm magic number"⟩,
   true, true, none, true, none, [], true, InstOutcome.ok⟩

/-- Counterexample to claim C5: at the compile step, load receives a
non-null error object from wasmtime_module_new and returns without any
report: the trace surfaces no diagnostic at all (no error log, no
error/trap release), so this engine error is discarded without passing
through the Error Reporter. -/
theorem load_discards_compile_error_unreported :
    Event.gotError "input bytes do not start with the wasm magic number" ∈
      (ngx_wasm_wasmtime_load c5Env).2 ∧
    surfacesDiagnostic (ngx_wasm_wasmtime_load c5Env).2 = false ∧
    (ngx_wasm_wasmtime_load c5Env).1 = none := by
  decide

def c10SuccessEnv : CallEnv :=
  ⟨"proxy_on_done", true, true, ParamType.i32i32 1 0,
   CallOutcome.ok (wasmtime_val_t.i32 (-1))⟩

def c10BadShapeEnv : CallEnv :=
  ⟨"proxy_on_done", true, true, ParamType.unknown 7,
   CallOutcome.ok (wasmtime_val_t.i32 0)⟩

def c10FailEnv : CallEnv :=
  ⟨"proxy_on_done", true, true, ParamType.i32i32 1 0,
   CallOutcome.trapped ⟨"wasm trap: wasm unreachable instruction executed"⟩⟩

def c10MismatchEnv : CallEnv :=
  ⟨"proxy_on_done", true, true, ParamType.i32i32 1 0,
   CallOutcome.ok (wasmtime_val_t.other 3)⟩

/-- Claim C10: NGX_ERROR is -1, which is a representable guest i32 result;
a successful call of an export returning -1 (its trace shows the invocation
and no error log) produces the same public return value as the
unsupported-shape, call-failure and result-type-mismatch error paths. -/
theorem call_guest_minus_one_indistinguishable_from_errors :
    NGX_ERROR = -1 ∧ int32Representable NGX_ERROR ∧
    (ngx_wasm_wasmtime_call c10SuccessEnv).1 = -1 ∧
    invokes (ngx_wasm_wasmtime_call c10SuccessEnv).2 = true ∧
    logsError (ngx_wasm_wasmtime_call c10SuccessEnv).2 = false ∧
    (ngx_wasm_wasmtime_call c10BadShapeEnv).1 = NGX_ERROR ∧
    (ngx_wasm_wasmtime_call c10FailEnv).1 = NGX_ERROR ∧
    (ngx_wasm_wasmtime_call c10MismatchEnv).1 = NGX_ERROR := by
  refine ⟨rfl, ⟨by norm_num [NGX_ERROR], by norm_num [NGX_ERROR]⟩, ?_, ?_, ?_, ?_, ?_, ?_⟩ <;>
    simp [ngx_wasm_wasmtime_call, c10SuccessEnv, c10BadShapeEnv, c10FailEnv, c10MismatchEnv,
          marshal, invokes, logsError, ngx_wasm_wasmtime_report_error, NGX_OK, NGX_ERROR]

/-- Claim C5 as amended: the reporter, given an error object (or, with a
null error, a trap), releases the object and logs the caller prefix followed
by the extracted message; every engine error obtained by load after the
compile step is released by the reporter within the same trace; and every
engine error or trap obtained by call is released by the reporter within the
same trace.  (The compile-step error is exempt: load discards it.) -/
theorem reporter_surfaces_all_checked_diagnostics :
    (∀ (pfx : String) (e : wasmtime_error_t) (t : Option wasm_trap_t),
        ngx_wasm_wasmtime_report_error pfx (some e) t =
          [Event.releaseError e.msg, Event.logErr (pfx ++ e.msg)]) ∧
    (∀ (pfx : String) (t : wasm_trap_t),
        ngx_wasm_wasmtime_report_error pfx none (some t) =
          [Event.releaseTrap t.msg, Event.logErr (pfx ++ t.msg)]) ∧
    (∀ (env : LoadEnv) (m : String), env.compile = CompileOutcome.ok →
        Event.gotError m ∈ (ngx_wasm_wasmtime_load env).2 →
        Event.releaseError m ∈ (ngx_wasm_wasmtime_load env).2) ∧
    (∀ (env : CallEnv) (m : String),
        Event.gotError m ∈ (ngx_wasm_wasmtime_call env).2 →
        Event.releaseError m ∈ (ngx_wasm_wasmtime_call env).2) ∧
    (∀ (env : CallEnv) (m : String),
        Event.gotTrap m ∈ (ngx_wasm_wasmtime_call env).2 →
        Event.releaseTrap m ∈ (ngx_wasm_wasmtime_call env).2) := by
  refine ⟨fun pfx e t => rfl, fun pfx t => rfl, ?_, ?_, ?_⟩
  · intro env m hc hm
    obtain ⟨compile, storeOk, wasiOk, setWasi, linkerOk, defWasi, apis, allocOk, inst⟩ := env
    cases compile with
    | err e => exact absurd hc (by simp)
    | ok =>
      cases storeOk
      · simp [ngx_wasm_wasmtime_load, free_module_tail] at hm
      · cases wasiOk
        · simp [ngx_wasm_wasmtime_load, free_store_tail, free_module_tail] at hm
        · rcases setWasi with _ | e1
          · cases linkerOk
            · simp [ngx_wasm_wasmtime_load, free_config_tail, free_store_tail,
                    free_module_tail] at hm
            · rcases defWasi with _ | e2
              · simp only [ngx_wasm_wasmtime_load] at hm ⊢
                cases hloop : (defineHostApis apis).2
                · simp [hloop, free_linker_tail, free_config_tail, free_store_tail,
                        free_module_tail] at hm ⊢
                  exact defineHostApis_releases apis m hm
                · cases allocOk
                  · simp [hloop, free_linker_tail, free_config_tail, free_store_tail,
                          free_module_tail] at hm ⊢
                    exact defineHostApis_releases apis m hm
                  · rcases inst with _ | e3 | t3
                    · simp [hloop] at hm ⊢
                      exact defineHostApis_releases apis m hm
                    · simp [hloop, free_linker_tail, free_config_tail, free_store_tail,
                            free_module_tail, ngx_wasm_wasmtime_report_error] at hm ⊢
                      rcases hm with hm | hm
                      · exact Or.inl (defineHostApis_releases apis m hm)
                      · exact Or.inr hm
                    · simp [hloop] at hm ⊢
                      exact defineHostApis_releases apis m hm
              · simp [ngx_wasm_wasmtime_load, free_linker_tail, free_config_tail,
                      free_store_tail, free_module_tail,
                      ngx_wasm_wasmtime_report_error] at hm ⊢
                exact hm
          · simp [ngx_wasm_wasmtime_load, free_config_tail, free_store_tail,
                  free_module_tail, ngx_wasm_wasmtime_report_error] at hm ⊢
            exact hm
  · intro env m hm
    obtain ⟨name, found, hasRes, pt, outcome⟩ := env
    cases found <;> rcases pt with ⟨a, b⟩ | _ | tag <;>
      rcases outcome with ⟨v | k⟩ | ⟨e⟩ | ⟨t⟩ <;> cases hasRes <;>
      simp_all [ngx_wasm_wasmtime_call, marshal, ngx_wasm_wasmtime_report_error]
  · intro env m hm
    obtain ⟨name, found, hasRes, pt, outcome⟩ := env
    cases found <;> rcases pt with ⟨a, b⟩ | _ | tag <;>
      rcases outcome with ⟨v | k⟩ | ⟨e⟩ | ⟨t⟩ <;> cases hasRes <;>
      simp_all [ngx_wasm_wasmtime_call, marshal, ngx_wasm_wasmtime_report_error]

def c5wLoadEnv : LoadEnv :=
  ⟨CompileOutcome.ok, true, true, some ⟨"preopened directory failed to open"⟩,
   true, none, [], true, InstOutcome.ok⟩

def c5wCallEnv : CallEnv :=
  ⟨"on_vm_start", true, false, ParamType.void,
   CallOutcome.err ⟨"expected 2 arguments, got 0"⟩⟩

def c5wCallEnv2 : CallEnv :=
  ⟨"malloc", true, true, ParamType.i32i32 8 0,
   CallOutcome.trapped ⟨"wasm trap: out of bounds memory access"⟩⟩

/-- Witness for the amended C5 at concrete failing steps: a WASI-attach
error in load, an engine error in call, and a trap in call are each released
by the reporter within the same trace. -/
theorem reporter_surfaces_all_checked_diagnostics_witness :
    c5wLoadEnv.compile = CompileOutcome.ok ∧
    Event.gotError "preopened directory failed to open" ∈
      (ngx_wasm_wasmtime_load c5wLoadEnv).2 ∧
    Event.releaseError "preopened directory failed to open" ∈
      (ngx_wasm_wasmtime_load c5wLoadEnv).2 ∧
    Event.gotError "expected 2 arguments, got 0" ∈ (ngx_wasm_wasmtime_call c5wCallEnv).2 ∧
    Event.releaseError "expected 2 arguments, got 0" ∈ (ngx_wasm_wasmtime_call c5wCallEnv).2 ∧
    Event.gotTrap "wasm trap: out of bounds memory access" ∈
      (ngx_wasm_wasmtime_call c5wCallEnv2).2 ∧
    Event.releaseTrap "wasm trap: out of bounds memory access" ∈
      (ngx_wasm_wasmtime_call c5wCallEnv2).2 := by
  refine ⟨rfl, by decide, ?_, by decide, ?_, by decide, ?_⟩
  · exact reporter_surfaces_all_checked_diagnostics.2.2.1 c5wLoadEnv
      "preopened directory failed to open" rfl (by decide)
  · exact reporter_surfaces_all_checked_diagnostics.2.2.2.1 c5wCallEnv
      "expected 2 arguments, got 0" (by decide)
  · exact reporter_surfaces_all_checked_diagnostics.2.2.2.2 c5wCallEnv2
      "wasm trap: out of bounds memory access" (by decide)
